import Mathlib

/-!
Shallow embedding of the Vault Runner language runtime
(`src/scratch/vault_runner.py` and `src/scratch/interpreter.py`),
with theorems checking the natural-language specification against it.

Conventions of the embedding:
* Python `dict[(x,y)] -> tile` becomes a partial map `(Int × Int) → Option Tile`;
  `dict.get(p, default)` becomes `(w p).getD default`.
* Python's `%` on ints is `Int.emod` (same behaviour on negative operands).
* The interpreter's control stack is a `List Frame` whose *head* is the
  Python list's last element (`call_stack[-1]`).
* `random.random() < 0.5` in `random_turn` is modelled by an oracle stream
  `coins : Nat → Bool` threaded through the interpreter state; `true` means
  the `< 0.5` branch (turn left).
* Exceptions (`SyntaxError`, `RuntimeError`, `IndexError`, `TypeError`)
  become an `Except Err` result.
-/

/-- Tile kinds stored in the world dict (`'wall'`, `'floor'`, `'key'`,
`'door'`, `'exit'`). -/
inductive Tile where
  | wall
  | floor
  | key
  | door
  | exit
deriving DecidableEq, Repr

/-- `VaultRunner.escape_via`: `'exit'` or `'door'` (or `None`). -/
inductive EscapeVia where
  | exit
  | door
deriving DecidableEq, Repr

/-- The world map: Python `dict` from integer coordinates to a tile;
absent keys are `none`. -/
def World : Type := (Int × Int) → Option Tile

/-- Robot state, from `VaultRunner.__init__`.  `correct_key_pos` models the
dynamically-added attribute probed by `hasattr(self.runner, 'correct_key_pos')`
in the interpreter's PICK handler: `none` means the attribute is absent.
(Display-only fields — action log, bounds, original-world snapshot — are
omitted; nothing in the engine reads them.) -/
structure RunnerState where
  x : Int
  y : Int
  direction : Int
  has_key : Bool
  door_opened : Bool
  escaped : Bool
  escape_via : Option EscapeVia
  world : World
  correct_key_pos : Option (Int × Int)

/-- `directions = [(0, 1), (1, 0), (0, -1), (-1, 0)]` indexed by the heading;
the runner keeps `direction` in `[0, 4)` via `% 4`, so only indices 0–3 occur. -/
def dirDelta (d : Int) : Int × Int :=
  if d = 0 then (0, 1)
  else if d = 1 then (1, 0)
  else if d = 2 then (0, -1)
  else (-1, 0)

/-- `VaultRunner.get_front_position`. -/
def RunnerState.get_front_position (s : RunnerState) : Int × Int :=
  let delta := dirDelta s.direction
  (s.x + delta.1, s.y + delta.2)

/-- `VaultRunner.is_front_clear`: `self.world.get(front_pos, 'wall') != 'wall'`. -/
def RunnerState.is_front_clear (s : RunnerState) : Bool :=
  let tile := (s.world s.get_front_position).getD Tile.wall
  tile != Tile.wall

/-- `VaultRunner.on_key`: `self.world.get((x, y), 'floor') == 'key'`. -/
def RunnerState.on_key (s : RunnerState) : Bool :=
  let tile := (s.world (s.x, s.y)).getD Tile.floor
  tile == Tile.key

/-- `VaultRunner.at_door`: `self.world.get((x, y), 'floor') == 'door'`. -/
def RunnerState.at_door (s : RunnerState) : Bool :=
  let tile := (s.world (s.x, s.y)).getD Tile.floor
  tile == Tile.door

/-- `VaultRunner.at_exit`: `self.world.get((x, y), 'floor') == 'exit'`. -/
def RunnerState.at_exit (s : RunnerState) : Bool :=
  let tile := (s.world (s.x, s.y)).getD Tile.floor
  tile == Tile.exit

/-- `VaultRunner.move_forward` (the returned bool is unused by the engine). -/
def RunnerState.move_forward (s : RunnerState) : RunnerState :=
  if s.is_front_clear then
    let front := s.get_front_position
    { s with x := front.1, y := front.2 }
  else
    s

/-- `VaultRunner.turn_left`: `direction = (direction - 1) % 4`. -/
def RunnerState.turn_left (s : RunnerState) : RunnerState :=
  { s with direction := (s.direction - 1).emod 4 }

/-- `VaultRunner.turn_right`: `direction = (direction + 1) % 4`. -/
def RunnerState.turn_right (s : RunnerState) : RunnerState :=
  { s with direction := (s.direction + 1).emod 4 }

/-- `VaultRunner.random_turn`; `coin = true` is the `random.random() < 0.5`
branch (turn left). -/
def RunnerState.random_turn (s : RunnerState) (coin : Bool) : RunnerState :=
  if coin then s.turn_left else s.turn_right

/-- Point update of the world dict: `self.world[(x, y)] = tile`. -/
def World.set (w : World) (p : Int × Int) (t : Tile) : World :=
  fun q => if q = p then some t else w q

/-- `VaultRunner.pick_key`. -/
def RunnerState.pick_key (s : RunnerState) : RunnerState :=
  if s.on_key && !s.has_key then
    { s with has_key := true, world := s.world.set (s.x, s.y) Tile.floor }
  else
    s

/-- `VaultRunner.pick_key_extension`: only the designated coordinate sets
`has_key`; on a wrong key tile the method only logs and returns `False`,
mutating nothing. -/
def RunnerState.pick_key_extension (s : RunnerState) (correct : Int × Int) :
    RunnerState :=
  if s.on_key && !s.has_key then
    if (s.x, s.y) = correct then
      { s with has_key := true, world := s.world.set (s.x, s.y) Tile.floor }
    else
      s
  else
    s

/-- `VaultRunner.open_door`. -/
def RunnerState.open_door (s : RunnerState) : RunnerState :=
  if s.at_door && s.has_key then
    { s with door_opened := true }
  else
    s

/-- `VaultRunner.check_escape`. -/
def RunnerState.check_escape (s : RunnerState) : RunnerState :=
  if s.at_exit then
    { s with escaped := true, escape_via := some EscapeVia.exit }
  else if s.at_door && s.door_opened then
    { s with escaped := true, escape_via := some EscapeVia.door }
  else
    s

/-- Tokens of the language: the 16 recognized keywords plus integer
literals (`part.isdigit()` tokens). -/
inductive Token where
  | MOVE | LEFT | RIGHT | RTURN | PICK | OPEN
  | LOOP | END | IF | WHILE
  | FRONT | KEY | DOOR | EXIT
  | SET | CLR
  | INT (n : Nat)
deriving DecidableEq, Repr

/-- Control-stack frames.  The interpreter only ever appends
`('LOOP', body_start, end_pc, count)` and `('WHILE', while_pc, end_pc, sensor)`
tuples, so these are the only frame shapes.  The LOOP `data` field keeps the
raw token placed after LOOP (the source stores `tokens[pc + 1]` unchecked). -/
inductive Frame where
  | loop (start_ : Nat) (end_ : Nat) (data : Token)
  | whileF (start_ : Nat) (end_ : Nat) (sensor : Token)
deriving DecidableEq, Repr

/-- Construction-time `SyntaxError` reasons. -/
inductive SyntaxKind where
  | invalidToken
  | tooManyDistinctTokens
  | unmatchedBlock
deriving DecidableEq, Repr

/-- Run-time `RuntimeError` reasons. -/
inductive RuntimeKind where
  | unknownSensor
  | sensorOutsideIfWhile
  | unknownCommand
deriving DecidableEq, Repr

/-- Exceptions the embedded code can raise. -/
inductive Err where
  | syntaxError (k : SyntaxKind)
  | runtimeError (k : RuntimeKind)
  | indexError
  | typeError
deriving DecidableEq, Repr

/-- One entry of `self.execution_history` (`step_info` in `run`). -/
structure StepInfo where
  pc : Nat
  token : Token
  position : Int × Int
  direction : Int
  has_key : Bool
  door_opened : Bool
deriving DecidableEq, Repr

/-- Mutable interpreter state (`pc`, `call_stack`, `flag`,
`instruction_count`, `execution_history`) together with the runner and the
randomness oracle for RTURN. -/
structure State where
  pc : Nat
  call_stack : List Frame
  flag : Bool
  instruction_count : Nat
  runner : RunnerState
  coins : Nat → Bool
  coinIdx : Nat
  history : List StepInfo

/-- `self.max_instructions = 10000`. -/
def max_instructions : Nat := 10000

/-- Scanning loop of `_find_matching_end`: advance `pc`, tracking the
nesting `level`, while `pc < len(tokens) and level > 0`; returns the final
`(pc, level)` pair.  The fuel `tokens.length` bounds the iterations exactly:
`pc` starts past `start_pc` and the loop stops at `tokens.length`. -/
def findEndAux (tokens : List Token) : Nat → Nat → Nat → Nat × Nat
  | 0, pc, level => (pc, level)
  | fuel + 1, pc, level =>
    if pc < tokens.length && level > 0 then
      let level' :=
        match tokens[pc]? with
        | some Token.LOOP | some Token.IF | some Token.WHILE => level + 1
        | some Token.END => level - 1
        | _ => level
      findEndAux tokens fuel (pc + 1) level'
    else
      (pc, level)

/-- `VaultInterpreter._find_matching_end`. -/
def find_matching_end (tokens : List Token) (start_pc : Nat) : Except Err Nat :=
  let r := findEndAux tokens tokens.length (start_pc + 1) 1
  if r.2 ≠ 0 then
    Except.error (Err.syntaxError SyntaxKind.unmatchedBlock)
  else
    Except.ok (r.1 - 1)

/-- `VaultInterpreter._evaluate_sensor`. -/
def evaluate_sensor (sensor : Token) (r : RunnerState) : Except Err Bool :=
  match sensor with
  | Token.FRONT => Except.ok r.is_front_clear
  | Token.KEY => Except.ok r.on_key
  | Token.DOOR => Except.ok r.at_door
  | Token.EXIT => Except.ok r.at_exit
  | _ => Except.error (Err.runtimeError RuntimeKind.unknownSensor)

/-- `VaultInterpreter._execute_instruction` (the `show_steps` display code
has no state effect and is dropped). -/
def execInstr (tokens : List Token) (t : Token) (s : State) : Except Err State :=
  match t with
  | Token.MOVE => Except.ok { s with runner := s.runner.move_forward }
  | Token.LEFT => Except.ok { s with runner := s.runner.turn_left }
  | Token.RIGHT => Except.ok { s with runner := s.runner.turn_right }
  | Token.RTURN =>
    Except.ok { s with runner := s.runner.random_turn (s.coins s.coinIdx),
                       coinIdx := s.coinIdx + 1 }
  | Token.PICK =>
    match s.runner.correct_key_pos with
    | some p => Except.ok { s with runner := s.runner.pick_key_extension p }
    | none => Except.ok { s with runner := s.runner.pick_key }
  | Token.OPEN => Except.ok { s with runner := s.runner.open_door }
  | Token.LOOP =>
    match tokens[s.pc + 1]? with
    | none => Except.error Err.indexError
    | some count =>
      match find_matching_end tokens s.pc with
      | Except.error e => Except.error e
      | Except.ok end_pc =>
        Except.ok { s with
          call_stack := Frame.loop (s.pc + 2) end_pc count :: s.call_stack,
          pc := s.pc + 1 }
  | Token.WHILE =>
    match tokens[s.pc + 1]? with
    | none => Except.error Err.indexError
    | some sensor =>
      match evaluate_sensor sensor s.runner with
      | Except.error e => Except.error e
      | Except.ok condition =>
        match find_matching_end tokens s.pc with
        | Except.error e => Except.error e
        | Except.ok end_pc =>
          if condition then
            Except.ok { s with
              call_stack := Frame.whileF s.pc end_pc sensor :: s.call_stack,
              pc := s.pc + 1 }
          else
            Except.ok { s with pc := end_pc }
  | Token.IF =>
    match tokens[s.pc + 1]? with
    | none => Except.error Err.indexError
    | some sensor =>
      match evaluate_sensor sensor s.runner with
      | Except.error e => Except.error e
      | Except.ok condition =>
        match find_matching_end tokens s.pc with
        | Except.error e => Except.error e
        | Except.ok end_pc =>
          if condition then
            Except.ok { s with pc := s.pc + 1 }
          else
            Except.ok { s with pc := end_pc }
  | Token.END =>
    match s.call_stack with
    | [] => Except.ok s
    | frame :: rest =>
      match frame with
      | Frame.loop start_ end_ data =>
        match data with
        | Token.INT n =>
          if (n : Int) - 1 > 0 then
            Except.ok { s with
              call_stack := Frame.loop start_ end_ (Token.INT (n - 1)) :: rest,
              pc := start_ - 1 }
          else
            Except.ok { s with call_stack := rest }
        | _ => Except.error Err.typeError
      | Frame.whileF start_ _ sensor =>
        match evaluate_sensor sensor s.runner with
        | Except.error e => Except.error e
        | Except.ok condition =>
          if condition then
            Except.ok { s with pc := start_ }
          else
            Except.ok { s with call_stack := rest }
  | Token.SET => Except.ok { s with flag := true }
  | Token.CLR => Except.ok { s with flag := false }
  | Token.FRONT | Token.KEY | Token.DOOR | Token.EXIT =>
    match s.call_stack with
    | Frame.whileF _ _ _ :: _ => Except.ok s
    | _ => Except.error (Err.runtimeError RuntimeKind.sensorOutsideIfWhile)
  | Token.INT _ => Except.ok s

/-- The `step_info` dict recorded before executing a token. -/
def mkInfo (t : Token) (s : State) : StepInfo :=
  { pc := s.pc, token := t, position := (s.runner.x, s.runner.y),
    direction := s.runner.direction, has_key := s.runner.has_key,
    door_opened := s.runner.door_opened }

/-- One iteration of the body of `run`'s while loop (after the budget
check): bump `instruction_count`, record the step, execute the token,
advance `pc`, then `check_escape`. -/
def stepState (tokens : List Token) (s : State) : Except Err State :=
  match tokens[s.pc]? with
  | none => Except.error Err.indexError
  | some t =>
    let s1 := { s with instruction_count := s.instruction_count + 1,
                       history := s.history ++ [mkInfo t s] }
    match execInstr tokens t s1 with
    | Except.error e => Except.error e
    | Except.ok s2 =>
      let s3 := { s2 with pc := s2.pc + 1 }
      Except.ok { s3 with runner := s3.runner.check_escape }

/-- The while loop of `VaultInterpreter.run`.  The fuel starts at
`max_instructions` with `instruction_count = 0` and drops by one exactly when
`instruction_count` rises by one, so fuel exhaustion is precisely the
`instruction_count >= max_instructions` break of the source. -/
def loopIter (tokens : List Token) : Nat → State → Except Err State
  | 0, s => Except.ok s
  | fuel + 1, s =>
    if s.pc < tokens.length && !s.runner.escaped then
      match stepState tokens s with
      | Except.error e => Except.error e
      | Except.ok s' => loopIter tokens fuel s'
    else
      Except.ok s

/-- The state `run` resets before its loop (`pc = 0`, empty stack, flag
cleared, `instruction_count = 0`, fresh history). -/
def initState (r : RunnerState) (coins : Nat → Bool) : State :=
  { pc := 0, call_stack := [], flag := false, instruction_count := 0,
    runner := r, coins := coins, coinIdx := 0, history := [] }

/-- `VaultInterpreter.run` on an already-tokenized program. -/
def run (tokens : List Token) (r : RunnerState) (coins : Nat → Bool) :
    Except Err State :=
  loopIter tokens max_instructions (initState r coins)

/-- Python `str.strip()` on a character list (ASCII whitespace). -/
def pyStrip (l : List Char) : List Char :=
  ((l.dropWhile Char.isWhitespace).reverse.dropWhile Char.isWhitespace).reverse

/-- Python `str.upper()` on a character list (ASCII). -/
def pyUpper (l : List Char) : List Char :=
  l.map Char.toUpper

/-- Python `line.split('#')[0]`: everything before the first `#`
(equals the whole line when there is no `#`). -/
def commentHead (l : List Char) : List Char :=
  l.takeWhile (fun c => c ≠ '#')

/-- Worker for `pyWords`: accumulate the current word (reversed). -/
def pyWordsAux : List Char → List Char → List (List Char)
  | [], acc => if acc.isEmpty then [] else [acc.reverse]
  | c :: cs, acc =>
    if c.isWhitespace then
      if acc.isEmpty then pyWordsAux cs []
      else acc.reverse :: pyWordsAux cs []
    else
      pyWordsAux cs (c :: acc)

/-- Python `line.split()`: split on whitespace runs, no empty parts. -/
def pyWords (l : List Char) : List (List Char) :=
  pyWordsAux l []

/-- Python `int(part)` for an ASCII digit string. -/
def digitsToNat (l : List Char) : Nat :=
  l.foldl (fun n c => n * 10 + (c.toNat - 48)) 0

/-- The keyword table of `_tokenize` (`valid_keywords`). -/
def stringToToken (part : List Char) : Option Token :=
  if part = "MOVE".data then some Token.MOVE
  else if part = "LEFT".data then some Token.LEFT
  else if part = "RIGHT".data then some Token.RIGHT
  else if part = "RTURN".data then some Token.RTURN
  else if part = "PICK".data then some Token.PICK
  else if part = "OPEN".data then some Token.OPEN
  else if part = "LOOP".data then some Token.LOOP
  else if part = "END".data then some Token.END
  else if part = "IF".data then some Token.IF
  else if part = "WHILE".data then some Token.WHILE
  else if part = "FRONT".data then some Token.FRONT
  else if part = "KEY".data then some Token.KEY
  else if part = "DOOR".data then some Token.DOOR
  else if part = "EXIT".data then some Token.EXIT
  else if part = "SET".data then some Token.SET
  else if part = "CLR".data then some Token.CLR
  else none

/-- One whitespace-separated part: keyword, else digit string
(`part.isdigit()`), else `SyntaxError(InvalidToken)`. -/
def tokenizePart (part : List Char) : Except Err Token :=
  match stringToToken part with
  | some t => Except.ok t
  | none =>
    if !part.isEmpty && part.all Char.isDigit then
      Except.ok (Token.INT (digitsToNat part))
    else
      Except.error (Err.syntaxError SyntaxKind.invalidToken)

/-- Tokens of one (already stripped and upper-cased) program line: drop the
`#` comment tail, skip the line if nothing is left. -/
def tokenizeLine (line : List Char) : Except Err (List Token) :=
  let noComment := pyStrip (commentHead line)
  if noComment.isEmpty then
    Except.ok []
  else
    (pyWords noComment).mapM tokenizePart

/-- `str(token)` of the symbolic (non-integer) tokens, for the distinct-token
count (`set(str(token) for token in tokens if isinstance(token, str))`). -/
def symName : Token → Option (List Char)
  | Token.MOVE => some "MOVE".data
  | Token.LEFT => some "LEFT".data
  | Token.RIGHT => some "RIGHT".data
  | Token.RTURN => some "RTURN".data
  | Token.PICK => some "PICK".data
  | Token.OPEN => some "OPEN".data
  | Token.LOOP => some "LOOP".data
  | Token.END => some "END".data
  | Token.IF => some "IF".data
  | Token.WHILE => some "WHILE".data
  | Token.FRONT => some "FRONT".data
  | Token.KEY => some "KEY".data
  | Token.DOOR => some "DOOR".data
  | Token.EXIT => some "EXIT".data
  | Token.SET => some "SET".data
  | Token.CLR => some "CLR".data
  | Token.INT _ => none

/-- `VaultInterpreter.__init__` + `_tokenize`: normalize the lines
(strip, upper-case, drop blanks), tokenize every part, then enforce the
20-distinct-symbolic-token limit.  This is all the construction does: no
block matching happens here. -/
def construct (lines : List String) : Except Err (List Token) :=
  let program := (lines.filter (fun l => !(pyStrip l.data).isEmpty)).map
    (fun l => pyUpper (pyStrip l.data))
  match program.mapM tokenizeLine with
  | Except.error e => Except.error e
  | Except.ok tokenLists =>
    let tokens := tokenLists.flatten
    let distinct := (tokens.filterMap symName).dedup
    if distinct.length > 20 then
      Except.error (Err.syntaxError SyntaxKind.tooManyDistinctTokens)
    else
      Except.ok tokens

/-! ## Result projections (first-order views of a run's outcome) -/

/-- Whether a run ended without an exception. -/
def resIsOk : Except Err State → Bool
  | Except.ok _ => true
  | Except.error _ => false

/-- Final robot position of a non-faulting run. -/
def resPos : Except Err State → Option (Int × Int)
  | Except.ok s => some (s.runner.x, s.runner.y)
  | Except.error _ => none

/-- Final `escape_via` of a non-faulting run. -/
def resVia : Except Err State → Option (Option EscapeVia)
  | Except.ok s => some s.runner.escape_via
  | Except.error _ => none

/-- Final `(has_key, door_opened, escaped)` of a non-faulting run. -/
def resFlags : Except Err State → Option (Bool × Bool × Bool)
  | Except.ok s => some (s.runner.has_key, s.runner.door_opened, s.runner.escaped)
  | Except.error _ => none

/-- Final `instruction_count` of a non-faulting run. -/
def resCount : Except Err State → Option Nat
  | Except.ok s => some s.instruction_count
  | Except.error _ => none

/-- Final program counter of a non-faulting run. -/
def resPc : Except Err State → Option Nat
  | Except.ok s => some s.pc
  | Except.error _ => none

/-- Final control stack of a non-faulting run. -/
def resStack : Except Err State → Option (List Frame)
  | Except.ok s => some s.call_stack
  | Except.error _ => none

/-- Tokens dispatched during a non-faulting run, in order
(from `execution_history`). -/
def resTokens : Except Err State → Option (List Token)
  | Except.ok s => some (s.history.map (fun i => i.token))
  | Except.error _ => none

/-- Number of MOVE dispatches recorded in an execution history. -/
def moveCount (h : List StepInfo) : Nat :=
  (h.filter (fun i => i.token == Token.MOVE)).length

/-- `moveCount` of the final history of a non-faulting run. -/
def resMoves : Except Err State → Option Nat
  | Except.ok s => some (moveCount s.history)
  | Except.error _ => none

/-- Final `is_front_clear()` of a non-faulting run. -/
def resFrontClear : Except Err State → Option Bool
  | Except.ok s => some s.runner.is_front_clear
  | Except.error _ => none

/-- Final world tile at a coordinate, for a non-faulting run. -/
def resTile (p : Int × Int) : Except Err State → Option (Option Tile)
  | Except.ok s => some (s.runner.world p)
  | Except.error _ => none

/-! ## Concrete worlds, runners and programs used by the claims -/

/-- A fixed RTURN oracle (RTURN never occurs in the programs below). -/
def trueCoins : Nat → Bool := fun _ => true

/-- The scenario world `{(0,0):floor,(1,0):key,(2,0):door,(3,0):exit}`. -/
def c1World : World := fun p =>
  if p = ((0 : Int), (0 : Int)) then some Tile.floor
  else if p = ((1 : Int), (0 : Int)) then some Tile.key
  else if p = ((2 : Int), (0 : Int)) then some Tile.door
  else if p = ((3 : Int), (0 : Int)) then some Tile.exit
  else none

/-- Robot at (0,0) facing East in `c1World`. -/
def c1Runner : RunnerState :=
  { x := 0, y := 0, direction := 1, has_key := false, door_opened := false,
    escaped := false, escape_via := none, world := c1World,
    correct_key_pos := none }

/-- Token form of the program `MOVE,PICK,MOVE,OPEN,MOVE`. -/
def c1Tokens : List Token :=
  [Token.MOVE, Token.PICK, Token.MOVE, Token.OPEN, Token.MOVE]

/-- Claim C1 (counterexample): in the scenario world, with the robot at
(0,0) facing East, running `MOVE,PICK,MOVE,OPEN,MOVE` does NOT end at (3,0)
with `escape_via = Exit`: after OPEN the robot is standing on the now-opened
door, so `check_escape` fires immediately and the run terminates at (2,0)
with `escape_via = Door`; only 4 instructions are dispatched and the final
MOVE never executes. -/
theorem c1_counterexample :
    resPos (run c1Tokens c1Runner trueCoins) = some (2, 0) ∧
    resVia (run c1Tokens c1Runner trueCoins) = some (some EscapeVia.door) ∧
    ¬(resPos (run c1Tokens c1Runner trueCoins) = some (3, 0) ∧
      resVia (run c1Tokens c1Runner trueCoins) = some (some EscapeVia.exit)) := by
  refine ⟨by decide, by decide, ?_⟩
  intro h
  have := h.1
  revert this
  decide

/-- Claim C1 (amended): for the world
`{(0,0):floor,(1,0):key,(2,0):door,(3,0):exit}` with the robot starting at
(0,0) facing East, the program `MOVE,PICK,MOVE,OPEN,MOVE` tokenizes as
expected and the run ends with final position (2,0), `has_key = true`,
`door_opened = true`, `escaped = true` and `escape_via = Door`: the run
terminates immediately after OPEN (4 dispatched instructions, the trailing
MOVE is never reached), because opening the door while standing on it
satisfies the door-escape condition at the per-step escape check. -/
theorem c1_amended :
    construct ["MOVE", "PICK", "MOVE", "OPEN", "MOVE"] = Except.ok c1Tokens ∧
    resPos (run c1Tokens c1Runner trueCoins) = some (2, 0) ∧
    resFlags (run c1Tokens c1Runner trueCoins) = some (true, true, true) ∧
    resVia (run c1Tokens c1Runner trueCoins) = some (some EscapeVia.door) ∧
    resCount (run c1Tokens c1Runner trueCoins) = some 4 ∧
    resTokens (run c1Tokens c1Runner trueCoins) =
      some [Token.MOVE, Token.PICK, Token.MOVE, Token.OPEN] := by
  refine ⟨rfl, by decide, by decide, by decide, by decide, by decide⟩

/-! ## Unfolding lemmas for the run loop -/

/-- Out of fuel: `instruction_count` reached `max_instructions`; the loop
breaks and the current state is the result. -/
theorem loopIter_zero (tokens : List Token) (s : State) :
    loopIter tokens 0 s = Except.ok s := rfl

/-- One unfolding of the run loop while budget remains. -/
theorem loopIter_succ (tokens : List Token) (fuel : Nat) (s : State) :
    loopIter tokens (fuel + 1) s =
      if s.pc < tokens.length && !s.runner.escaped then
        match stepState tokens s with
        | Except.error e => Except.error e
        | Except.ok s' => loopIter tokens fuel s'
      else
        Except.ok s := rfl

/-- A runner used as a generic concrete instance (empty world). -/
def emptyRunner : RunnerState :=
  { x := 0, y := 0, direction := 0, has_key := false, door_opened := false,
    escaped := false, escape_via := none, world := fun _ => none,
    correct_key_pos := none }

/-- Claim C3 (counterexample): the program `LOOP 3 / MOVE` has only
recognized symbols and an unmatched LOOP, yet interpreter construction
succeeds — no SyntaxError is raised at construction time. -/
theorem c3_counterexample :
    construct ["LOOP 3", "MOVE"] =
      Except.ok [Token.LOOP, Token.INT 3, Token.MOVE] := rfl

/-- Claim C3 (amended): construction does not check control-block matching
at all (`construct` on `LOOP 3 / MOVE` succeeds); the
`SyntaxError(UnmatchedBlock)` is raised lazily at run time, when the
unmatched LOOP token is dispatched and its matching END is searched, for
any starting runner. -/
theorem c3_amended :
    construct ["LOOP 3", "MOVE"] =
      Except.ok [Token.LOOP, Token.INT 3, Token.MOVE] ∧
    ∀ (r : RunnerState) (coins : Nat → Bool), r.escaped = false →
      run [Token.LOOP, Token.INT 3, Token.MOVE] r coins =
        Except.error (Err.syntaxError SyntaxKind.unmatchedBlock) := by
  refine ⟨rfl, fun r coins h => ?_⟩
  have hrun : run [Token.LOOP, Token.INT 3, Token.MOVE] r coins =
      loopIter [Token.LOOP, Token.INT 3, Token.MOVE] (9999 + 1)
        (initState r coins) := rfl
  rw [hrun, loopIter_succ]
  simp [initState, stepState, execInstr, find_matching_end, findEndAux, h]

/-- Claim C3 (witness for the amended theorem): the run-time part applied at
a concrete runner. -/
theorem c3_witness :
    run [Token.LOOP, Token.INT 3, Token.MOVE] emptyRunner trueCoins =
      Except.error (Err.syntaxError SyntaxKind.unmatchedBlock) :=
  c3_amended.2 emptyRunner trueCoins rfl

/-- Claim C7: for every runner state (any world mapping, any pose), a
coordinate absent from the world reads as Wall for `is_front_clear` — so a
MOVE into it is blocked, leaving the state unchanged — while the same absence
at the robot's own position reads as Floor for `on_key`/`at_door`/`at_exit`,
so an off-map cell never registers as key, door or exit. -/
theorem c7_absent_defaults (s : RunnerState) :
    (s.world s.get_front_position = none →
      s.is_front_clear = false ∧ s.move_forward = s) ∧
    (s.world (s.x, s.y) = none →
      s.on_key = false ∧ s.at_door = false ∧ s.at_exit = false) := by
  constructor
  · intro h
    have hclear : s.is_front_clear = false := by
      simp [RunnerState.is_front_clear, h]
    refine ⟨hclear, ?_⟩
    simp [RunnerState.move_forward, hclear]
  · intro h
    refine ⟨?_, ?_, ?_⟩ <;> simp [RunnerState.on_key, RunnerState.at_door,
      RunnerState.at_exit, h]

/-- Claim C7 (witness): the defaults evaluated on a concrete runner in an
empty world. -/
theorem c7_witness :
    emptyRunner.is_front_clear = false ∧ emptyRunner.move_forward = emptyRunner ∧
    emptyRunner.on_key = false ∧ emptyRunner.at_door = false ∧
    emptyRunner.at_exit = false := by
  have h1 := (c7_absent_defaults emptyRunner).1 rfl
  have h2 := (c7_absent_defaults emptyRunner).2 rfl
  exact ⟨h1.1, h1.2, h2.1, h2.2.1, h2.2.2⟩

/-- A runner standing on a key tile that is NOT the designated correct-key
coordinate (the correct key sits at (5,5)). -/
def c8Runner : RunnerState :=
  { x := 0, y := 0, direction := 0, has_key := false, door_opened := false,
    escaped := false, escape_via := none,
    world := fun p => if p = ((0 : Int), (0 : Int)) then some Tile.key else none,
    correct_key_pos := some (5, 5) }

/-- Claim C8 (counterexample): in single-correct-key mode, PICK on a wrong
Key tile does NOT mutate the tile to Floor — the wrong-key branch of
`pick_key_extension` only logs, so the tile stays Key (and `has_key` stays
false).  Shown both on the runner method and through the engine's PICK
dispatch. -/
theorem c8_counterexample :
    (c8Runner.pick_key_extension (5, 5)).world (0, 0) = some Tile.key ∧
    (c8Runner.pick_key_extension (5, 5)).world (0, 0) ≠ some Tile.floor ∧
    (c8Runner.pick_key_extension (5, 5)).has_key = false ∧
    resTile (0, 0) (run [Token.PICK] c8Runner trueCoins) = some (some Tile.key) ∧
    resFlags (run [Token.PICK] c8Runner trueCoins) = some (false, false, false) := by
  refine ⟨by decide, by decide, by decide, by decide, by decide⟩

/-- Claim C8 (amended): in single-correct-key mode, PICK on a Key tile that
is not the designated coordinate (with `has_key` false) is a complete no-op —
it neither sets `has_key` nor mutates the tile, which remains Key; only PICK
on the designated correct-key coordinate sets `has_key = true` and mutates
that tile to Floor. -/
theorem c8_amended :
    (∀ (r : RunnerState) (p : Int × Int),
      r.on_key = true → r.has_key = false → (r.x, r.y) ≠ p →
        r.pick_key_extension p = r) ∧
    (∀ (r : RunnerState) (p : Int × Int),
      r.on_key = true → r.has_key = false → (r.x, r.y) = p →
        (r.pick_key_extension p).has_key = true ∧
        (r.pick_key_extension p).world (r.x, r.y) = some Tile.floor) := by
  constructor
  · intro r p hk hh hne
    simp [RunnerState.pick_key_extension, hk, hh, hne]
  · intro r p hk hh he
    simp [RunnerState.pick_key_extension, hk, hh, he, World.set]

/-- Claim C8 (witness for the amended theorem): the wrong-key no-op applied
at the concrete runner, and the correct-key success at the same runner with
the correct key relocated to (0,0). -/
theorem c8_witness :
    c8Runner.pick_key_extension (5, 5) = c8Runner ∧
    (c8Runner.pick_key_extension (0, 0)).has_key = true ∧
    (c8Runner.pick_key_extension (0, 0)).world (0, 0) = some Tile.floor := by
  refine ⟨c8_amended.1 c8Runner (5, 5) rfl rfl (by decide), ?_, ?_⟩
  · exact (c8_amended.2 c8Runner (0, 0) rfl rfl rfl).1
  · exact (c8_amended.2 c8Runner (0, 0) rfl rfl rfl).2

/-! ## Corridor scenarios -/

/-- A straight east-bound corridor: floor cells (0,0)…(k,0), a wall at
(k+1,0), nothing else on the map. -/
def corridorWorld (k : Nat) : World := fun p =>
  if p.2 = 0 ∧ 0 ≤ p.1 ∧ p.1 ≤ (k : Int) then some Tile.floor
  else if p.2 = 0 ∧ p.1 = (k : Int) + 1 then some Tile.wall
  else none

/-- Robot at (0,0) facing East in the k-corridor. -/
def corridorRunner (k : Nat) : RunnerState :=
  { x := 0, y := 0, direction := 1, has_key := false, door_opened := false,
    escaped := false, escape_via := none, world := corridorWorld k,
    correct_key_pos := none }

/-- Token form of `WHILE FRONT / MOVE / END`. -/
def whileFrontTokens : List Token :=
  [Token.WHILE, Token.FRONT, Token.MOVE, Token.END]

/-- Claim C2 (counterexample): running `WHILE FRONT / MOVE / END` on a
2-cell corridor, after the 3rd dispatched instruction (the END whose sensor
re-evaluates true) the program counter is 1 — the sensor token FRONT — not 0,
the WHILE token; the frame is not re-pushed, and over the whole 2-iteration
run the WHILE token is dispatched exactly once.  So the WHILE token is NOT
re-entered and its evaluate-and-branch logic is NOT re-run on every
iteration. -/
theorem c2_counterexample :
    resPc (loopIter whileFrontTokens 3 (initState (corridorRunner 2) trueCoins)) =
      some 1 ∧
    resStack (loopIter whileFrontTokens 3 (initState (corridorRunner 2) trueCoins)) =
      some [Frame.whileF 0 3 Token.FRONT] ∧
    whileFrontTokens[1]? = some Token.FRONT ∧
    resTokens (run whileFrontTokens (corridorRunner 2) trueCoins) =
      some [Token.WHILE, Token.MOVE, Token.END, Token.FRONT, Token.MOVE,
        Token.END] ∧
    ((resTokens (run whileFrontTokens (corridorRunner 2) trueCoins)).getD
      []).count Token.WHILE = 1 := by
  refine ⟨by decide, by decide, by decide, by decide, by decide⟩

/-- Claim C2 (amended): when END is dispatched with a top While frame whose
sensor re-evaluates to true, `pc` is assigned `start_index` inside the
handler, but the engine's uniform post-instruction increment then moves it
to `start_index + 1`: the next dispatched token is the WHILE's sensor token
(a no-op while the frame is on the stack), the WHILE token itself is never
re-dispatched, no new frame is pushed, and the per-iteration re-evaluation
happens entirely inside the END handler. -/
theorem c2_amended (tokens : List Token) (s : State) (start_ end_ : Nat)
    (sensor : Token) (rest : List Frame)
    (hstack : s.call_stack = Frame.whileF start_ end_ sensor :: rest)
    (hEnd : tokens[s.pc]? = some Token.END)
    (hsens : evaluate_sensor sensor s.runner = Except.ok true) :
    resPc (stepState tokens s) = some (start_ + 1) ∧
    resStack (stepState tokens s) = some s.call_stack := by
  simp only [stepState, hEnd]
  simp only [execInstr, hstack, hsens]
  simp [resPc, resStack, hstack]

/-- Robot one cell into the 2-corridor (position after the first MOVE). -/
def c2Runner : RunnerState :=
  { x := 1, y := 0, direction := 1, has_key := false, door_opened := false,
    escaped := false, escape_via := none, world := corridorWorld 2,
    correct_key_pos := none }

/-- Intermediate state of the corridor-2 run just before its first END
dispatch (reached after WHILE and MOVE). -/
def c2State : State :=
  { pc := 3, call_stack := [Frame.whileF 0 3 Token.FRONT], flag := false,
    instruction_count := 3, runner := c2Runner, coins := trueCoins,
    coinIdx := 0, history := [] }

/-- Claim C2 (witness for the amended theorem): the END dispatch applied at
the concrete mid-run state. -/
theorem c2_witness :
    resPc (stepState whileFrontTokens c2State) = some (0 + 1) ∧
    resStack (stepState whileFrontTokens c2State) = some c2State.call_stack :=
  c2_amended whileFrontTokens c2State 0 3 Token.FRONT [] (by rfl) (by rfl)
    (by rfl)

/-- Program `LOOP 1 / IF KEY / END / END`. -/
def c4Tokens : List Token :=
  [Token.LOOP, Token.INT 1, Token.IF, Token.KEY, Token.END, Token.END]

/-- Robot standing on a key tile (so the IF branch is taken). -/
def c4Runner : RunnerState :=
  { x := 0, y := 0, direction := 0, has_key := false, door_opened := false,
    escaped := false, escape_via := none,
    world := fun p => if p = ((0 : Int), (0 : Int)) then some Tile.key else none,
    correct_key_pos := none }

/-- Claim C4 (counterexample): running `LOOP 1 / IF KEY / END / END` on a
key tile, after 2 dispatched instructions the Loop frame (whose own matching
END is at index 5) is on top with `pc = 4` — the IF's END.  Dispatching that
END (the 3rd instruction) pops the Loop frame: a frame is removed by an END
that is NOT its own matching END (4 ≠ 5), refuting the invariant. -/
theorem c4_counterexample :
    resPc (loopIter c4Tokens 2 (initState c4Runner trueCoins)) = some 4 ∧
    resStack (loopIter c4Tokens 2 (initState c4Runner trueCoins)) =
      some [Frame.loop 2 5 (Token.INT 1)] ∧
    c4Tokens[4]? = some Token.END ∧
    find_matching_end c4Tokens 0 = Except.ok 5 ∧
    resStack (loopIter c4Tokens 3 (initState c4Runner trueCoins)) = some [] := by
  refine ⟨by decide, by decide, by decide, rfl, by decide⟩

/-- Claim C4 (amended): a control frame is removed only by dispatching an
END token — but not necessarily that frame's own matching END: whenever a
dispatched instruction shrinks the control stack, the instruction is END and
it pops exactly the top frame (the counterexample shows an IF's END popping
a Loop frame whose own matching END is elsewhere). -/
theorem c4_amended (tokens : List Token) (t : Token) (s s' : State)
    (h : execInstr tokens t s = Except.ok s')
    (hlt : s'.call_stack.length < s.call_stack.length) :
    t = Token.END ∧ s'.call_stack = s.call_stack.tail := by
  cases t <;> simp only [execInstr] at h <;>
    (try (repeat' split at h)) <;>
    (try simp only [Except.ok.injEq] at h) <;>
    (try cases h) <;>
    simp_all

/-- The mid-run state of the C4 scenario at which the pop happens. -/
def c4PopState : State :=
  { pc := 4, call_stack := [Frame.loop 2 5 (Token.INT 1)], flag := false,
    instruction_count := 3, runner := c4Runner, coins := trueCoins,
    coinIdx := 0, history := [] }

/-- Claim C4 (witness for the amended theorem): the pop rule applied at the
concrete END dispatch of the counterexample. -/
theorem c4_witness :
    Token.END = Token.END ∧
    ({ c4PopState with call_stack := ([] : List Frame) }).call_stack =
      c4PopState.call_stack.tail :=
  c4_amended c4Tokens Token.END c4PopState
    { c4PopState with call_stack := ([] : List Frame) } (by rfl) (by decide)

/-- Claim C5: dispatching a bare sensor token (FRONT, KEY, DOOR, EXIT) with
an empty control stack or a Loop frame on top (the code's
`not call_stack or call_stack[-1][0] not in ['IF','WHILE']` test; IF frames
are never pushed) makes the step — and hence the whole run — abort with the
`RuntimeError` fault, propagated to the caller; conversely, dispatching a
bare sensor token with a While frame on top does not fault. -/
theorem c5_bare_sensor (tokens : List Token) (s : State) (t : Token)
    (hget : tokens[s.pc]? = some t)
    (hsens : t = Token.FRONT ∨ t = Token.KEY ∨ t = Token.DOOR ∨ t = Token.EXIT) :
    ((s.call_stack = [] ∨
        ∃ a b d rest, s.call_stack = Frame.loop a b d :: rest) →
      stepState tokens s =
        Except.error (Err.runtimeError RuntimeKind.sensorOutsideIfWhile) ∧
      ∀ fuel, s.runner.escaped = false →
        loopIter tokens (fuel + 1) s =
          Except.error (Err.runtimeError RuntimeKind.sensorOutsideIfWhile)) ∧
    (∀ a b sen rest, s.call_stack = Frame.whileF a b sen :: rest →
      resIsOk (stepState tokens s) = true) := by
  have hpc : s.pc < tokens.length := by
    rcases List.getElem?_eq_some.mp hget with ⟨hl, _⟩
    exact hl
  constructor
  · intro hstack
    have hstep : stepState tokens s =
        Except.error (Err.runtimeError RuntimeKind.sensorOutsideIfWhile) := by
      rcases hstack with hnil | ⟨a, b, d, rest, hcons⟩ <;>
        rcases hsens with rfl | rfl | rfl | rfl <;>
          simp_all [stepState, execInstr]
    refine ⟨hstep, fun fuel hesc => ?_⟩
    rw [loopIter_succ]
    simp [hpc, hesc, hstep]
  · intro a b sen rest hcons
    rcases hsens with rfl | rfl | rfl | rfl <;>
      simp_all [stepState, execInstr, resIsOk]

/-- Claim C5 (witness): a bare FRONT as the first token with an empty stack
faults the run at once. -/
theorem c5_witness :
    run [Token.FRONT] emptyRunner trueCoins =
      Except.error (Err.runtimeError RuntimeKind.sensorOutsideIfWhile) :=
  ((c5_bare_sensor [Token.FRONT] (initState emptyRunner trueCoins) Token.FRONT
    rfl (Or.inl rfl)).1 (Or.inl rfl)).2 9999 rfl

/-- Program `LOOP 0 / MOVE / END`. -/
def loop0Tokens : List Token :=
  [Token.LOOP, Token.INT 0, Token.MOVE, Token.END]

/-- Robot facing East with exactly one free cell ahead. -/
def loop0Runner : RunnerState :=
  { x := 0, y := 0, direction := 1, has_key := false, door_opened := false,
    escaped := false, escape_via := none,
    world := fun p =>
      if p = ((0 : Int), (0 : Int)) then some Tile.floor
      else if p = ((1 : Int), (0 : Int)) then some Tile.floor
      else none,
    correct_key_pos := none }

/-- Claim C10: `LOOP 0` executes its body exactly once.  (a) Dispatching
LOOP pushes the frame and enters the body unconditionally — the next
dispatched index is `pc + 2`, the first body token — for every count `n`,
including 0; (b) only at END is the count examined, and a count of 0 pops
the frame and falls through (no jump back, no second iteration);
(c) concretely, `LOOP 0 / MOVE / END` dispatches MOVE exactly once, moving
the robot one cell, in 3 instructions. -/
theorem c10_loop_zero :
    (∀ (tokens : List Token) (s : State) (n e : Nat),
      tokens[s.pc]? = some Token.LOOP →
      tokens[s.pc + 1]? = some (Token.INT n) →
      find_matching_end tokens s.pc = Except.ok e →
      resPc (stepState tokens s) = some (s.pc + 2) ∧
      resStack (stepState tokens s) =
        some (Frame.loop (s.pc + 2) e (Token.INT n) :: s.call_stack)) ∧
    (∀ (tokens : List Token) (s : State) (st e : Nat) (rest : List Frame),
      tokens[s.pc]? = some Token.END →
      s.call_stack = Frame.loop st e (Token.INT 0) :: rest →
      resPc (stepState tokens s) = some (s.pc + 1) ∧
      resStack (stepState tokens s) = some rest) ∧
    (resPos (run loop0Tokens loop0Runner trueCoins) = some (1, 0) ∧
     resMoves (run loop0Tokens loop0Runner trueCoins) = some 1 ∧
     resCount (run loop0Tokens loop0Runner trueCoins) = some 3) := by
  refine ⟨?_, ?_, by decide, by decide, by decide⟩
  · intro tokens s n e hget hcnt hfme
    simp [stepState, execInstr, hget, hcnt, hfme, resPc, resStack]
  · intro tokens s st e rest hget hcons
    have hneg : ¬(((0 : Nat) : Int) - 1 > 0) := by decide
    simp [stepState, execInstr, hget, hcons, hneg, resPc, resStack]

/-- Claim C10 (witness): the LOOP-entry rule applied at the concrete
`LOOP 0 / MOVE / END` start state. -/
theorem c10_witness :
    resPc (stepState loop0Tokens (initState loop0Runner trueCoins)) =
      some ((initState loop0Runner trueCoins).pc + 2) ∧
    resStack (stepState loop0Tokens (initState loop0Runner trueCoins)) =
      some (Frame.loop ((initState loop0Runner trueCoins).pc + 2) 3
        (Token.INT 0) :: (initState loop0Runner trueCoins).call_stack) :=
  c10_loop_zero.1 loop0Tokens (initState loop0Runner trueCoins) 0 3 rfl rfl rfl

/-! ## Instruction-budget accounting -/

/-- `_execute_instruction` never touches `instruction_count`. -/
theorem execInstr_count (tokens : List Token) (t : Token) (s s' : State)
    (h : execInstr tokens t s = Except.ok s') :
    s'.instruction_count = s.instruction_count := by
  cases t <;> simp only [execInstr] at h <;>
    (try (repeat' split at h)) <;>
    (try simp only [Except.ok.injEq] at h) <;>
    (try cases h) <;>
    simp_all

/-- Each loop iteration raises `instruction_count` by exactly one. -/
theorem stepState_count (tokens : List Token) (s s' : State)
    (h : stepState tokens s = Except.ok s') :
    s'.instruction_count = s.instruction_count + 1 := by
  simp only [stepState] at h
  split at h
  · simp_all
  · rename_i t heq
    split at h
    · simp_all
    · rename_i s2 heq2
      simp only [Except.ok.injEq] at h
      subst h
      have := execInstr_count tokens t _ s2 heq2
      simp_all

/-- The run loop adds at most `fuel` to `instruction_count`. -/
theorem loopIter_count_le (tokens : List Token) :
    ∀ (fuel : Nat) (s s' : State), loopIter tokens fuel s = Except.ok s' →
      s'.instruction_count ≤ s.instruction_count + fuel := by
  intro fuel
  induction fuel with
  | zero =>
    intro s s' h
    simp only [loopIter_zero, Except.ok.injEq] at h
    subst h
    omega
  | succ f ih =>
    intro s s' h
    rw [loopIter_succ] at h
    split at h
    · split at h
      · simp_all
      · rename_i s1 heq
        have hc := stepState_count tokens s s1 heq
        have := ih s1 s' h
        omega
    · simp only [Except.ok.injEq] at h
      subst h
      omega

/-! ## The LOOP 10000 / MOVE / END scenario -/

/-- A one-cell room: a single floor tile, every neighbour off-map (Wall for
movement); no key, door or exit anywhere. -/
def roomRunner : RunnerState :=
  { x := 0, y := 0, direction := 0, has_key := false, door_opened := false,
    escaped := false, escape_via := none,
    world := fun p => if p = ((0 : Int), (0 : Int)) then some Tile.floor else none,
    correct_key_pos := none }

/-- Program `LOOP 10000 / MOVE / END`. -/
def loop10000Tokens : List Token :=
  [Token.LOOP, Token.INT 10000, Token.MOVE, Token.END]

/-- Loop state at the top of the body (about to dispatch MOVE), with
`m` iterations left on the frame and `n` instructions dispatched. -/
def c9StateA (m n : Nat) (h : List StepInfo) : State :=
  { pc := 2, call_stack := [Frame.loop 2 3 (Token.INT m)], flag := false,
    instruction_count := n, runner := roomRunner, coins := trueCoins,
    coinIdx := 0, history := h }

/-- Loop state about to dispatch END. -/
def c9StateB (m n : Nat) (h : List StepInfo) : State :=
  { pc := 3, call_stack := [Frame.loop 2 3 (Token.INT m)], flag := false,
    instruction_count := n, runner := roomRunner, coins := trueCoins,
    coinIdx := 0, history := h }

/-- The blocked MOVE step: robot boxed in, state advances to the END. -/
theorem c9_stepA (m n : Nat) (h : List StepInfo) :
    stepState loop10000Tokens (c9StateA m n h) =
      Except.ok (c9StateB m (n + 1)
        (h ++ [mkInfo Token.MOVE (c9StateA m n h)])) := rfl

/-- The END step while at least 2 iterations remain: decrement and jump
back to the body. -/
theorem c9_stepB (m n : Nat) (h : List StepInfo) (hm : 2 ≤ m) :
    stepState loop10000Tokens (c9StateB m n h) =
      Except.ok (c9StateA (m - 1) (n + 1)
        (h ++ [mkInfo Token.END (c9StateB m n h)])) := by
  have hpos : ((m : Int) - 1 > 0) := by omega
  simp only [stepState, show loop10000Tokens[3]? = some Token.END from rfl,
    execInstr, c9StateB]
  rw [if_pos hpos]
  rfl

/-- Main budget induction for the boxed-in `LOOP 10000` run: with
`fuel + n = max_instructions` and enough loop iterations left to outlast the
fuel, the run ends cleanly with `instruction_count = max_instructions` and
the runner untouched. -/
theorem c9_aux :
    ∀ (f m n : Nat) (h : List StepInfo), f + n = max_instructions →
      f + 2 ≤ 2 * m →
      ∃ s', loopIter loop10000Tokens f (c9StateA m n h) = Except.ok s' ∧
        s'.instruction_count = max_instructions ∧ s'.runner = roomRunner := by
  intro f
  induction f using Nat.strong_induction_on with
  | _ f ih =>
    match f with
    | 0 =>
      intro m n h hn _
      refine ⟨c9StateA m n h, loopIter_zero _ _, ?_, rfl⟩
      simpa using hn
    | 1 =>
      intro m n h hn _
      refine ⟨c9StateB m (n + 1) (h ++ [mkInfo Token.MOVE (c9StateA m n h)]),
        rfl, ?_, rfl⟩
      simp only [c9StateB]
      omega
    | (f + 2) =>
      intro m n h hn hm
      have hm2 : 2 ≤ m := by omega
      obtain ⟨s', hs', hc, hr⟩ := ih f (by omega) (m - 1) (n + 2)
        ((h ++ [mkInfo Token.MOVE (c9StateA m n h)]) ++
          [mkInfo Token.END (c9StateB m (n + 1)
            (h ++ [mkInfo Token.MOVE (c9StateA m n h)]))])
        (by omega) (by omega)
      refine ⟨s', ?_, hc, hr⟩
      show (match stepState loop10000Tokens (c9StateB m (n + 1)
          (h ++ [mkInfo Token.MOVE (c9StateA m n h)])) with
        | Except.error e => Except.error e
        | Except.ok s2 => loopIter loop10000Tokens f s2) = Except.ok s'
      rw [c9_stepB m (n + 1) _ hm2]
      exact hs'

/-- Claim C9: every run reaches a terminal state dispatching at most
`instruction_budget` (= `max_instructions` = 10000) instructions; and
concretely, `LOOP 10000 / MOVE / END` with the robot boxed into a one-cell
room halts non-fatally (no exception) with `escaped = false` and
`instruction_count = max_instructions` exactly. -/
theorem c9_budget :
    (∀ (tokens : List Token) (r : RunnerState) (coins : Nat → Bool) (s' : State),
      run tokens r coins = Except.ok s' →
        s'.instruction_count ≤ max_instructions) ∧
    (∃ s', run loop10000Tokens roomRunner trueCoins = Except.ok s' ∧
      s'.instruction_count = max_instructions ∧ s'.runner.escaped = false) := by
  constructor
  · intro tokens r coins s' h
    have := loopIter_count_le tokens max_instructions (initState r coins) s' h
    simpa [initState] using this
  · have hstep1 : stepState loop10000Tokens (initState roomRunner trueCoins) =
        Except.ok (c9StateA 10000 1
          [mkInfo Token.LOOP (initState roomRunner trueCoins)]) := rfl
    have h2 : run loop10000Tokens roomRunner trueCoins =
        loopIter loop10000Tokens 9999 (c9StateA 10000 1
          [mkInfo Token.LOOP (initState roomRunner trueCoins)]) := by
      rw [show run loop10000Tokens roomRunner trueCoins =
        loopIter loop10000Tokens (9999 + 1) (initState roomRunner trueCoins)
          from rfl, loopIter_succ,
        if_pos (show (decide ((initState roomRunner trueCoins).pc <
            loop10000Tokens.length) &&
          !(initState roomRunner trueCoins).runner.escaped) = true from rfl),
        hstep1]
    obtain ⟨s', heq, hcount, hrunner⟩ :=
      c9_aux 9999 10000 1 _ (by simp [max_instructions]) (by omega)
    refine ⟨s', by rw [h2]; exact heq, hcount, ?_⟩
    rw [hrunner]
    rfl

/-- Claim C9 (witness): the budget bound applied to the concrete empty
program (which halts immediately with count 0). -/
theorem c9_witness :
    (initState emptyRunner trueCoins).instruction_count ≤ max_instructions :=
  c9_budget.1 [] emptyRunner trueCoins (initState emptyRunner trueCoins) rfl

/-! ## WHILE FRONT / MOVE / END on a k-corridor -/

/-- One guarded, successful iteration of the run loop. -/
theorem loopIter_step (tokens : List Token) (fuel : Nat) (s s1 : State)
    (hguard : (decide (s.pc < tokens.length) && !s.runner.escaped) = true)
    (hstep : stepState tokens s = Except.ok s1) :
    loopIter tokens (fuel + 1) s = loopIter tokens fuel s1 := by
  rw [loopIter_succ, if_pos hguard, hstep]

/-- When the loop guard fails, the loop returns the state for any fuel. -/
theorem loopIter_stop (tokens : List Token) (fuel : Nat) (s : State)
    (hguard : (decide (s.pc < tokens.length) && !s.runner.escaped) = false) :
    loopIter tokens fuel s = Except.ok s := by
  cases fuel with
  | zero => exact loopIter_zero _ _
  | succ f => rw [loopIter_succ, if_neg (by simp [hguard])]

/-- Robot j cells into the k-corridor, facing East. -/
def corrRunner (k j : Nat) : RunnerState :=
  { x := (j : Int), y := 0, direction := 1, has_key := false,
    door_opened := false, escaped := false, escape_via := none,
    world := corridorWorld k, correct_key_pos := none }

/-- The corridor tile at an interior cell is floor. -/
theorem corrWorld_floor (k j : Nat) (hj : j ≤ k) :
    corridorWorld k ((j : Int), 0) = some Tile.floor := by
  simp only [corridorWorld]
  split_ifs with h1 h2 <;>
    first
      | rfl
      | (exfalso; simp only [true_and] at h1; omega)

/-- The corridor tile just past cell k is the wall. -/
theorem corrWorld_wall (k : Nat) :
    corridorWorld k ((k : Int) + 1, 0) = some Tile.wall := by
  simp only [corridorWorld]
  split_ifs with h1 h2
  · exfalso
    simp only [true_and] at h1
    omega
  · rfl
  · exact h2 ⟨trivial, trivial⟩

/-- `front_clear` holds strictly inside the corridor. -/
theorem corr_clear (k j : Nat) (hj : j < k) :
    (corrRunner k j).is_front_clear = true := by
  have hw : corridorWorld k ((j : Int) + 1, 0) = some Tile.floor := by
    have h := corrWorld_floor k (j + 1) (by omega)
    have hcast : (((j + 1 : Nat)) : Int) = (j : Int) + 1 := by push_cast; ring
    rw [hcast] at h
    exact h
  simp [RunnerState.is_front_clear, RunnerState.get_front_position, corrRunner,
    dirDelta, hw]

/-- `front_clear` fails at the end of the corridor (wall ahead). -/
theorem corr_blocked (k : Nat) :
    (corrRunner k k).is_front_clear = false := by
  simp [RunnerState.is_front_clear, RunnerState.get_front_position, corrRunner,
    dirDelta, corrWorld_wall k]

/-- A successful MOVE advances one cell. -/
theorem corr_move (k j : Nat) (hj : j < k) :
    (corrRunner k j).move_forward = corrRunner k (j + 1) := by
  simp only [RunnerState.move_forward, corr_clear k j hj]
  simp [corrRunner, RunnerState.get_front_position, dirDelta]

/-- No escape anywhere on the corridor (floor everywhere the robot stands). -/
theorem corr_check (k j : Nat) (hj : j ≤ k) :
    (corrRunner k j).check_escape = corrRunner k j := by
  simp [RunnerState.check_escape, RunnerState.at_exit, RunnerState.at_door,
    corrRunner, corrWorld_floor k j hj]

/-- Loop state about to dispatch the body MOVE (pc = 2). -/
def c6StateA (k j n : Nat) (h : List StepInfo) (co : Nat → Bool) : State :=
  { pc := 2, call_stack := [Frame.whileF 0 3 Token.FRONT], flag := false,
    instruction_count := n, runner := corrRunner k j, coins := co,
    coinIdx := 0, history := h }

/-- Loop state about to dispatch END (pc = 3). -/
def c6StateB (k j n : Nat) (h : List StepInfo) (co : Nat → Bool) : State :=
  { pc := 3, call_stack := [Frame.whileF 0 3 Token.FRONT], flag := false,
    instruction_count := n, runner := corrRunner k j, coins := co,
    coinIdx := 0, history := h }

/-- Loop state about to dispatch the WHILE's sensor token as a no-op
(pc = 1, reached after END jumped back to the WHILE index). -/
def c6StateD (k j n : Nat) (h : List StepInfo) (co : Nat → Bool) : State :=
  { pc := 1, call_stack := [Frame.whileF 0 3 Token.FRONT], flag := false,
    instruction_count := n, runner := corrRunner k j, coins := co,
    coinIdx := 0, history := h }

/-- Terminal state: frame popped, pc past the END. -/
def c6StateE (k n : Nat) (h : List StepInfo) (co : Nat → Bool) : State :=
  { pc := 4, call_stack := [], flag := false, instruction_count := n,
    runner := corrRunner k k, coins := co, coinIdx := 0, history := h }

/-- MOVE step of the loop body (front clear). -/
theorem c6_stepMove (k j n : Nat) (h : List StepInfo) (co : Nat → Bool)
    (hj : j < k) :
    stepState whileFrontTokens (c6StateA k j n h co) =
      Except.ok (c6StateB k (j + 1) (n + 1)
        (h ++ [mkInfo Token.MOVE (c6StateA k j n h co)]) co) := by
  simp only [stepState, c6StateA,
    show whileFrontTokens[2]? = some Token.MOVE from rfl, execInstr]
  simp [c6StateB, corr_move k j hj, corr_check k (j + 1) (by omega), mkInfo]

/-- END step while the front is still clear: sensor re-evaluates true,
jump back to the WHILE index (pc becomes 1 after the increment). -/
theorem c6_stepEnd_cont (k j n : Nat) (h : List StepInfo) (co : Nat → Bool)
    (hj : j < k) :
    stepState whileFrontTokens (c6StateB k j n h co) =
      Except.ok (c6StateD k j (n + 1)
        (h ++ [mkInfo Token.END (c6StateB k j n h co)]) co) := by
  simp only [stepState, c6StateB,
    show whileFrontTokens[3]? = some Token.END from rfl, execInstr,
    evaluate_sensor]
  simp [c6StateD, corr_clear k j hj, corr_check k j (by omega), mkInfo]

/-- END step at the wall: sensor re-evaluates false, pop the frame and
fall through. -/
theorem c6_stepEnd_stop (k n : Nat) (h : List StepInfo) (co : Nat → Bool) :
    stepState whileFrontTokens (c6StateB k k n h co) =
      Except.ok (c6StateE k (n + 1)
        (h ++ [mkInfo Token.END (c6StateB k k n h co)]) co) := by
  simp only [stepState, c6StateB,
    show whileFrontTokens[3]? = some Token.END from rfl, execInstr,
    evaluate_sensor]
  simp [c6StateE, corr_blocked k, corr_check k k (by omega), mkInfo]

/-- The WHILE's sensor token dispatched as a no-op (While frame on top). -/
theorem c6_stepFront (k j n : Nat) (h : List StepInfo) (co : Nat → Bool)
    (hj : j ≤ k) :
    stepState whileFrontTokens (c6StateD k j n h co) =
      Except.ok (c6StateA k j (n + 1)
        (h ++ [mkInfo Token.FRONT (c6StateD k j n h co)]) co) := by
  simp only [stepState, c6StateD,
    show whileFrontTokens[1]? = some Token.FRONT from rfl, execInstr]
  simp [c6StateA, corr_check k j hj, mkInfo]

/-- `moveCount` over a one-step history extension. -/
theorem moveCount_append (h : List StepInfo) (i : StepInfo) :
    moveCount (h ++ [i]) =
      moveCount h + (if i.token = Token.MOVE then 1 else 0) := by
  by_cases hc : i.token = Token.MOVE <;>
    simp [moveCount, List.filter_append, List.filter_cons, hc]

/-- Corridor loop induction: from the top of the body with `d ≥ 1` cells
left, the loop runs to the terminal state with `3 * k` total instructions
and `d` more MOVE dispatches. -/
theorem c6_aux :
    ∀ (d k j n : Nat) (h : List StepInfo) (co : Nat → Bool),
      j + d = k → 1 ≤ d → n = 3 * j + 1 → 3 * k ≤ max_instructions →
      ∃ h2, loopIter whileFrontTokens (max_instructions - n)
          (c6StateA k j n h co) =
        Except.ok (c6StateE k (3 * k) h2 co) ∧
        moveCount h2 = moveCount h + d := by
  intro d
  induction d using Nat.strong_induction_on with
  | _ d ih =>
    match d with
    | 0 =>
      intro k j n h co _ hd _ _
      exact absurd hd (by omega)
    | 1 =>
      intro k j n h co hjd hd hn hb
      have hjk : j < k := by omega
      have hj1 : j + 1 = k := by omega
      have e1 : max_instructions - n = (max_instructions - (n + 1)) + 1 := by
        omega
      rw [e1, loopIter_step whileFrontTokens (max_instructions - (n + 1)) _ _
        (by rfl) (c6_stepMove k j n h co hjk)]
      rw [hj1]
      have e2 : max_instructions - (n + 1) =
          (max_instructions - (n + 2)) + 1 := by omega
      rw [e2, loopIter_step whileFrontTokens (max_instructions - (n + 2)) _ _
        (by rfl) (c6_stepEnd_stop k (n + 1) _ co)]
      rw [loopIter_stop whileFrontTokens _ _ (by rfl)]
      have e3 : n + 2 = 3 * k := by omega
      rw [e3]
      refine ⟨_, rfl, ?_⟩
      rw [moveCount_append, moveCount_append]
      simp [mkInfo]
    | (d + 2) =>
      intro k j n h co hjd hd hn hb
      have hjk : j < k := by omega
      have hj1k : j + 1 < k := by omega
      have e1 : max_instructions - n = (max_instructions - (n + 1)) + 1 := by
        omega
      rw [e1, loopIter_step whileFrontTokens (max_instructions - (n + 1)) _ _
        (by rfl) (c6_stepMove k j n h co hjk)]
      have e2 : max_instructions - (n + 1) =
          (max_instructions - (n + 2)) + 1 := by omega
      rw [e2, loopIter_step whileFrontTokens (max_instructions - (n + 2)) _ _
        (by rfl) (c6_stepEnd_cont k (j + 1) (n + 1) _ co hj1k)]
      have e3 : max_instructions - (n + 2) =
          (max_instructions - (n + 3)) + 1 := by omega
      rw [e3, loopIter_step whileFrontTokens (max_instructions - (n + 3)) _ _
        (by rfl) (c6_stepFront k (j + 1) (n + 2) _ co (by omega))]
      obtain ⟨h2, hrun, hmc⟩ := ih (d + 1) (by omega) k (j + 1) (n + 3) _ co
        (by omega) (by omega) (by omega) hb
      refine ⟨h2, hrun, ?_⟩
      rw [moveCount_append, moveCount_append, moveCount_append] at hmc
      simp [mkInfo] at hmc
      omega

/-- The initial WHILE dispatch on the corridor: sensor true (k ≥ 1), frame
pushed, control enters the body. -/
theorem c6_stepWhile (k : Nat) (co : Nat → Bool) (hk : 1 ≤ k) :
    stepState whileFrontTokens (initState (corrRunner k 0) co) =
      Except.ok (c6StateA k 0 1
        [mkInfo Token.WHILE (initState (corrRunner k 0) co)] co) := by
  simp only [stepState, initState, execInstr,
    show whileFrontTokens[(0 : Nat)]? = some Token.WHILE from rfl,
    show whileFrontTokens[0 + 1]? = some Token.FRONT from rfl,
    show whileFrontTokens[(1 : Nat)]? = some Token.FRONT from rfl,
    show find_matching_end whileFrontTokens 0 = Except.ok 3 from rfl,
    evaluate_sensor]
  rw [corr_clear k 0 hk]
  simp [c6StateA, mkInfo, corr_check k 0 (by omega)]

/-- Claim C6: for every `k ≥ 1` within the instruction budget
(`3 * k ≤ max_instructions` dispatches are needed), running
`WHILE FRONT / MOVE / END` on a straight corridor of k clear cells followed
by a wall dispatches MOVE exactly k times, moves the robot k cells (to
x = k), and halts non-fatally with `front_clear() = false` (and without
escaping), in exactly `3 * k` dispatched instructions. -/
theorem c6_while_corridor (k : Nat) (co : Nat → Bool) (hk : 1 ≤ k)
    (hbudget : 3 * k ≤ max_instructions) :
    ∃ s', run whileFrontTokens (corridorRunner k) co = Except.ok s' ∧
      s'.runner.x = (k : Int) ∧ s'.runner.y = 0 ∧
      s'.instruction_count = 3 * k ∧ moveCount s'.history = k ∧
      s'.runner.is_front_clear = false ∧ s'.runner.escaped = false := by
  have hinit : corridorRunner k = corrRunner k 0 := rfl
  obtain ⟨h2, hrun, hmc⟩ := c6_aux k k 0 1
    [mkInfo Token.WHILE (initState (corrRunner k 0) co)] co
    (by omega) hk (by omega) hbudget
  refine ⟨c6StateE k (3 * k) h2 co, ?_, ?_, ?_, ?_, ?_, ?_, ?_⟩
  · rw [show run whileFrontTokens (corridorRunner k) co =
      loopIter whileFrontTokens ((max_instructions - 1) + 1)
        (initState (corridorRunner k) co) from rfl]
    rw [hinit, loopIter_step whileFrontTokens (max_instructions - 1) _ _
      (by rfl) (c6_stepWhile k co hk)]
    exact hrun
  · simp [c6StateE, corrRunner]
  · simp [c6StateE, corrRunner]
  · simp [c6StateE]
  · show moveCount h2 = k
    rw [hmc]
    simp [moveCount, List.filter_cons, mkInfo]
  · exact corr_blocked k
  · simp [c6StateE, corrRunner]

/-- Claim C6 (witness): the corridor theorem applied at k = 2. -/
theorem c6_witness :
    ∃ s', run whileFrontTokens (corridorRunner 2) trueCoins = Except.ok s' ∧
      s'.runner.x = ((2 : Nat) : Int) ∧ s'.runner.y = 0 ∧
      s'.instruction_count = 3 * 2 ∧ moveCount s'.history = 2 ∧
      s'.runner.is_front_clear = false ∧ s'.runner.escaped = false :=
  c6_while_corridor 2 trueCoins (by omega) (by simp [max_instructions])
